import Mathlib

/-!
Verification of the template-selection and interface-derivation engine of
`generator.py` (network-device commissioning config generator).

Strings are embedded as `List Char` (`Str`); Python dict fields that may be
absent or `None` are embedded as `Option` fields (Python's `dict.get`
treats both alike everywhere this code reads them).  Code paths that can
raise a Python exception are embedded in `Except String`.
-/

/-- Python strings, embedded as lists of characters. -/
abbrev Str := List Char

/-- Coerce a Lean string literal to the `List Char` embedding. -/
def str (s : String) : Str := s.data

/-- Python `str.strip()`: drop whitespace from both ends. -/
def pyStrip (s : Str) : Str :=
  ((s.dropWhile Char.isWhitespace).reverse.dropWhile Char.isWhitespace).reverse

/-- Python `s.startswith(p)`. -/
def py_startswith (s p : Str) : Bool :=
  match s, p with
  | _, [] => true
  | [], _ :: _ => false
  | c :: cs, q :: qs => c == q && py_startswith cs qs

/-- Python `s.replace(old, new)` for single characters
(`backhaul.replace('-', '_')` in `choose_template`). -/
def pyReplaceChar (s : Str) (old new : Char) : Str :=
  s.map (fun c => if c = old then new else c)

/-!
`clean_id`'s regex `(_39\d{2}|_51\d{2}|_81\d{2}|_0\d|-0\d)+$` (IGNORECASE is
irrelevant: the pattern has no letters).  At any position at most one
alternative can match (the alternatives are distinguished by their first two
characters), so the regex's repetition is deterministic: a position starts a
match iff the forced unit decomposition from there consumes the string
exactly.  `re.sub(..., '', s)` removes the leftmost (hence longest) such
suffix.
-/

/-- Match one alternative of the suffix regex at the head of the list,
returning the remainder. -/
def matchUnit : Str → Option Str
  | '_' :: '3' :: '9' :: d1 :: d2 :: rest =>
      if d1.isDigit && d2.isDigit then some rest else none
  | '_' :: '5' :: '1' :: d1 :: d2 :: rest =>
      if d1.isDigit && d2.isDigit then some rest else none
  | '_' :: '8' :: '1' :: d1 :: d2 :: rest =>
      if d1.isDigit && d2.isDigit then some rest else none
  | '_' :: '0' :: d :: rest => if d.isDigit then some rest else none
  | '-' :: '0' :: d :: rest => if d.isDigit then some rest else none
  | _ => none

/-- One-or-more units consuming the list exactly, with fuel; every unit
consumes at least one character, so `fuel = s.length` is always enough. -/
def unitsToEndF : Nat → Str → Bool
  | 0, _ => false
  | fuel + 1, s =>
    match matchUnit s with
    | none => false
    | some rest => rest.isEmpty || unitsToEndF fuel rest

/-- Test whether `(unit)+$` matches starting at the head of `s`. -/
def unitsToEnd (s : Str) : Bool := unitsToEndF s.length s

/-- Embedding of `re.sub(r'(_39\d{2}|_51\d{2}|_81\d{2}|_0\d|-0\d)+$', '', s)`:
remove the leftmost suffix that is a nonempty run of units reaching the end. -/
def stripModelSuffix : Str → Str
  | [] => []
  | c :: rest =>
    if unitsToEnd (c :: rest) then [] else c :: stripModelSuffix rest

/-- Embedding of `clean_id` from `_derive_interface_name`:
site token extraction over two hostname conventions. -/
def clean_id (hostname : Str) : Str :=
  let parts_dash := hostname.splitOn '-'
  if 3 ≤ parts_dash.length ∧ ((parts_dash.get? 1).getD []).length = 3
      ∧ ((parts_dash.get? 1).getD []).all Char.isAlpha then
    (parts_dash.get? 1).getD []
  else
    let base := stripModelSuffix hostname
    let parts_score := base.splitOn '_'
    if 1 < parts_score.length ∧ ((parts_score.get? 0).getD []).length = 1 then
      ((parts_score.get? 0).getD []) ++ '_' :: ((parts_score.get? 1).getD [])
    else
      (parts_score.get? 0).getD []

/-- Embedding of `get_model` from `_derive_interface_name`:
`re.search(r'(\d{4})', hostname)` — the first run of 4 consecutive digits. -/
def get_model : Str → Str
  | a :: b :: c :: d :: rest =>
    if a.isDigit && b.isDigit && c.isDigit && d.isDigit then [a, b, c, d]
    else get_model (b :: c :: d :: rest)
  | _ => []

/-- Embedding of `_derive_interface_name(local_host, remote_host)`:
derive an interface name of at most 15 characters. -/
def _derive_interface_name (local_host remote_host : Str) : Str :=
  if local_host = [] ∨ remote_host = [] then []
  else
    let local_id := clean_id local_host
    let remote_id := clean_id remote_host
    let remote_model := get_model remote_host
    let candidate1 := local_id ++ '-' :: (remote_id ++ remote_model)
    if candidate1.length ≤ 15 then candidate1
    else
      let candidate2 := local_id ++ '-' :: remote_id
      if candidate2.length ≤ 15 then candidate2
      else (local_id.take 7) ++ '-' :: (remote_id.take 7)

/-!
## Template Selector (`choose_template`)

The code strips each attribute, builds an ordered candidate list, and
returns the first candidate that occurs in `available_templates`;
otherwise the first available template, otherwise the generic one.
-/

/-- The ordered candidate list built by `choose_template`
(arguments already stripped, as in the source after its `.strip()` calls). -/
def candidate_list (model backhaul software role : Str) : List Str :=
  (if model ≠ [] ∧ software ≠ [] then
    [str "ciena_" ++ model ++ str "_" ++ software ++ str ".cfg.j2"] else [])
  ++ (if model ≠ [] ∧ software ≠ [] ∧ backhaul ≠ [] then
    [str "ciena_" ++ model ++ str "_" ++ software ++ str "_" ++ backhaul ++ str ".cfg.j2"] else [])
  ++ (if software = str "saos10" then [str "ciena_saos10.cfg.j2"] else [])
  ++ (if software = str "saos6" then [str "ciena_saos6.cfg.j2"] else [])
  ++ (if model ≠ [] ∧ backhaul ≠ [] then
    [str "ciena_" ++ model ++ str "_" ++ backhaul ++ str ".cfg.j2",
     str "ciena_" ++ model ++ str "_" ++ backhaul ++ str "_backhaul.cfg.j2",
     str "ciena_" ++ model ++ str "_" ++ pyReplaceChar backhaul '-' '_' ++ str ".cfg.j2"] else [])
  ++ (if model ≠ [] ∧ role ≠ [] then
    [str "ciena_" ++ model ++ str "_" ++ role ++ str ".cfg.j2"] else [])
  ++ (if model ≠ [] then [str "ciena_" ++ model ++ str ".cfg.j2"] else [])
  ++ [str "ciena_generic.cfg.j2"]

/-- Embedding of `choose_template(model, backhaul, software, role, available_templates)`. -/
def choose_template (model backhaul software role : Str)
    (available_templates : List Str) : Str :=
  let candidates :=
    candidate_list (pyStrip model) (pyStrip backhaul) (pyStrip software) (pyStrip role)
  match candidates.find? (fun c => decide (c ∈ available_templates)) with
  | some c => c
  | none =>
    match available_templates with
    | t :: _ => t
    | [] => str "ciena_generic.cfg.j2"

/-!
## Device record model

Fields the code reads via `dev.get(...)` are `Option`-typed: `none` stands
for an absent key or a `None` value (indistinguishable to every read the
code performs).  The per-role fields `single_*`, `primary_*`, `secondary_*`
are grouped into one `RoleFields` block per role; `create_iface`'s
`f"{prefix}_..."` key reads become block-field reads.
-/

/-- A `{role}_port` value: a string, or a list of member-port strings. -/
inductive PortVal
  | s (v : Str)
  | l (vs : List Str)
deriving DecidableEq, Repr

/-- The `{role}_*` fields of a device record for one role. -/
structure RoleFields where
  port : Option PortVal := none
  ip : Option Str := none
  vlan : Option Str := none
  mtu : Option Str := none
  if_name : Option Str := none
  neighbor_name : Option Str := none
  neighbor_port : Option Str := none
  neighbor_ip : Option Str := none
deriving DecidableEq, Repr

/-- An entry of the `aggregations` list (a dict with a `"name"` key). -/
structure Agg where
  name : Str
deriving DecidableEq, Repr

/-- An InterfaceSpec dict as built by `create_iface` (also the shape of
`other_interfaces` entries, which are appended verbatim). -/
structure Iface where
  name : Str
  description : Str
  vlan : Option Str
  ip : Option Str
  mtu : Option Str
  port : Option Str
  neighbor_name : Option Str
  neighbor_port : Option Str
  neighbor_ip : Option Str
  saos10_link_id : Str
deriving DecidableEq, Repr

/-- The device record (a Python dict), with the keys the generator reads. -/
structure Dev where
  hostname : Option Str := none
  model : Option Str := none
  software_version : Option Str := none
  role : Option Str := none
  backhaul : Option Str := none
  aggregation_enabled : Bool := false
  aggregation_name : Option Str := none
  aggregations : Option (List Agg) := none
  single : RoleFields := {}
  primary : RoleFields := {}
  secondary : RoleFields := {}
  other_interfaces : Option (List Iface) := none
  tacacs_secret : Option Str := none
  license_keys : Option (List Str) := none
  interfaces : Option (List Iface) := none
deriving DecidableEq, Repr

/-- The role prefixes `create_iface` is called with. -/
inductive RoleKey
  | single
  | primary
  | secondary
deriving DecidableEq, Repr

/-- Dispatch `f"{prefix}_..."` key reads to the corresponding role block. -/
def Dev.roleFields (dev : Dev) : RoleKey → RoleFields
  | .single => dev.single
  | .primary => dev.primary
  | .secondary => dev.secondary

/-- Embedding of `normalize_port` from `_build_interfaces_from_backhaul`. -/
def normalize_port : Option PortVal → Str
  | none => []
  | some (.s v) => v
  | some (.l vs) =>
    match vs with
    | [] => []
    | v :: _ => v

/-- The local variable `smart_name` of `create_iface`: the derived
identifier when a (truthy) neighbor hostname is present, else `""`. -/
def create_iface_smart_name (dev : Dev) (rk : RoleKey) : Str :=
  let local_host := dev.hostname.getD []
  let neighbor := (dev.roleFields rk).neighbor_name
  if neighbor.getD [] ≠ [] then _derive_interface_name local_host (neighbor.getD [])
  else []

/-- The local variable `final_name` of `create_iface`: smart name when the
manual name is default/empty, else the manual name, else the `Port_` fallback. -/
def create_iface_final_name (dev : Dev) (rk : RoleKey) : Str :=
  let port := normalize_port (dev.roleFields rk).port
  let manual_name := (dev.roleFields rk).if_name
  let is_default_name :=
    manual_name.getD [] = [] ∨ py_startswith (manual_name.getD []) (str "Port_")
  let smart_name := create_iface_smart_name dev rk
  if smart_name ≠ [] ∧ is_default_name then smart_name
  else if manual_name.getD [] ≠ [] then manual_name.getD []
  else if port ≠ [] then str "Port_" ++ port
  else str "Port_BH"

/-- Embedding of `create_iface` from `_build_interfaces_from_backhaul`.
The closure variables `backhaul`, `aggregation_enabled`, `local_host` are
re-read from `dev`; the only fallible step is the dual-backhaul
`dev.get("aggregations")[idx]["name"]` subscript, embedded in `Except`. -/
def create_iface (dev : Dev) (rk : RoleKey) (idx : Nat) : Except String Iface :=
  let backhaul := dev.backhaul.getD []
  let fields := dev.roleFields rk
  let port := normalize_port fields.port
  let neighbor := fields.neighbor_name
  let smart_name := create_iface_smart_name dev rk
  let final_name := create_iface_final_name dev rk
  let portField : Except String (Option Str) :=
    if dev.aggregation_enabled ∧ backhaul = str "single" then
      Except.ok dev.aggregation_name
    else if dev.aggregation_enabled ∧ backhaul = str "dual" then
      match dev.aggregations with
      | none => Except.error "TypeError: NoneType object is not subscriptable"
      | some aggs =>
        match aggs.get? idx with
        | none => Except.error "IndexError: list index out of range"
        | some a => Except.ok (some a.name)
    else Except.ok (some port)
  match portField with
  | Except.error e => Except.error e
  | Except.ok p =>
    Except.ok
      { name := final_name
        description := str "BACKHAUL"
        vlan := fields.vlan
        ip := fields.ip
        mtu := fields.mtu
        port := p
        neighbor_name := neighbor
        neighbor_port := fields.neighbor_port
        neighbor_ip := fields.neighbor_ip
        saos10_link_id := smart_name }

/-- Embedding of `_build_interfaces_from_backhaul(dev)`: the backhaul interfaces followed
by `other_interfaces`; a Python exception surfaces as `Except.error`. -/
def _build_interfaces_from_backhaul (dev : Dev) : Except String (List Iface) :=
  let backhaul := dev.backhaul.getD []
  let others := dev.other_interfaces.getD []
  if backhaul = str "single" then
    match create_iface dev RoleKey.single 0 with
    | Except.error e => Except.error e
    | Except.ok i => Except.ok ([i] ++ others)
  else if backhaul = str "dual" then
    match create_iface dev RoleKey.primary 0 with
    | Except.error e => Except.error e
    | Except.ok i1 =>
      match create_iface dev RoleKey.secondary 1 with
      | Except.error e => Except.error e
      | Except.ok i2 => Except.ok ([i1, i2] ++ others)
  else Except.ok others

/-!
## `render_device` and its default-credentials table
-/

/-- Constant `SAOS10_SECRET` from the source. -/
def SAOS10_SECRET : Str := str "ku34yr&oi3746t7YT5R434893"

/-- The per-model defaults entry returned by `get_model_defaults`. -/
structure ModelDefaults where
  tacacs_secret : Str
  license_keys : List Str
deriving DecidableEq, Repr

/-- Constant `legacy_secret` from `get_model_defaults`. -/
def legacy_secret : Str := str "#A#ZlFm6R4dQ0uR4D6rOjaXTMIoNnKVa9BP+s1VMFnBseL+AN66GjfDOwDrLXWCDUZc2dpW54ThKyWUfwFHN+CL3/B+2uqaL2URdzrB8ecyNHlfAYNWZ+1GhbOrCAJq5YwfZsPqN0yWRIfnzswlQhsJnrzTirtK/t9+3skXxLeNIZcr9hbpkGZGtzofwNs/IHA9TW21N9n61M8ms79egItUriziJoSq3XBp1FFUf1E5VRQ61CE0FKCQt+9DxjMDvPzV"

/-- Embedding of `get_model_defaults(model)`: the map lookup with its default entry. -/
def get_model_defaults (model : Str) : ModelDefaults :=
  let m := pyStrip model
  if m = str "3903" then
    { tacacs_secret := str "#A#xTyOFCALzN92CljilIM/PQmofDrCIdFBXGjyCqe9TzldvYG17jjKp4xXs/25wAHlk0tq5hO9ei4C0QoI7cZckeqHNFEAS6VYCoVxXwDkJ33gvx4tm3Dn73t3sHs37DGvxPi6Mhag0jKYGu50QiD+jKbIn52PMOXOjgOyUETLvByBN4X2LSIQ1vhYPPSKjpdQ5fH1huIZgnSfJvs3p6/sqbs4Ms+u0flvn77Z1SEqFHD0vfdahHY4LM79is9ynsWu"
      license_keys := [str "W9FOI8C7N3NIB4", str "WAFOI8C7N3NJB6", str "W61WI8C7N3NKXB"] }
  else if m = str "3916" then
    { tacacs_secret := legacy_secret
      license_keys := [str "W5FNI8C7N3YNM4", str "W61WI8C7N3NKXB", str "W9FNI8C7N3YLM6", str "WAFNI8C7N3YMM8"] }
  else if m = str "3926" then
    { tacacs_secret := legacy_secret
      license_keys := [str "WDFTI8C7N430RW", str "W5FTI8C7N431RP", str "WCFTI8C7N432RX", str "W6FTI8C7N433RS"] }
  else if m = str "3928" then
    { tacacs_secret := legacy_secret
      license_keys := [str "WDFUI8C7N3NLBH", str "W5FUI8C7N4ZEN3", str "WCFUI8C7N3NMBH", str "W6FUI8C7N3NNBC"] }
  else if m = str "5142" then
    { tacacs_secret := legacy_secret, license_keys := [str "<5142-KEY-PLACEHOLDER>"] }
  else if m = str "5130" then
    { tacacs_secret := SAOS10_SECRET, license_keys := [] }
  else if m = str "5171" then
    { tacacs_secret := SAOS10_SECRET, license_keys := [] }
  else if m = str "8110" then
    { tacacs_secret := SAOS10_SECRET, license_keys := [] }
  else if m = str "8114" then
    { tacacs_secret := SAOS10_SECRET, license_keys := [] }
  else
    { tacacs_secret := str "vault://ciena/default/tacacs"
      license_keys := [str "<LICENSE-PLACEHOLDER-1>"] }

/-!
## Heap model for `render_device`

Python dicts are mutable heap objects; `render_device` receives a reference
to the caller's dict.  The heap is a list of `Dev` cells, a reference an
index into it.  `dev = dict(dev)` allocates a fresh cell holding the same
top-level bindings (appended at the end of the heap); all subsequent
`dev[...] = ...` writes hit the fresh cell only.  The result carries the
reference to the enriched copy, the filename, the rendered content, and the
template used; the opaque Jinja render step is a function parameter.
-/

/-- Embedding of `render_device(dev, available_templates)` over the heap model.
Returns the updated heap and, unless interface derivation raised, the
reference to the enriched copy plus `(base_fname, content, tpl_used)`. -/
def render_device (render : Str → Dev → Str) (heap : List Dev) (r : Nat)
    (available_templates : List Str) :
    List Dev × Except String (Nat × Str × Str × Str) :=
  let dev0 := heap.getD r {}
  let model := pyStrip (dev0.model.getD [])
  let model_defaults := get_model_defaults model
  -- dev = dict(dev): allocate the shallow copy as a fresh heap cell
  let dev1 :=
    if dev0.tacacs_secret.getD [] = [] then
      { dev0 with tacacs_secret := some model_defaults.tacacs_secret }
    else dev0
  let dev2 :=
    if dev1.license_keys.getD [] = [] then
      { dev1 with license_keys := some model_defaults.license_keys }
    else dev1
  match _build_interfaces_from_backhaul dev2 with
  | Except.error e => (heap ++ [dev2], Except.error e)
  | Except.ok ifaces =>
    let dev3 := { dev2 with interfaces := some ifaces }
    let tpl_used :=
      choose_template model (dev3.backhaul.getD []) (dev3.software_version.getD [])
        (dev3.role.getD []) available_templates
    let content := render tpl_used dev3
    let hostname :=
      if dev3.hostname.getD [] = [] then str "unnamed-device" else dev3.hostname.getD []
    let base_fname := hostname ++ str ".txt"
    (heap ++ [dev3], Except.ok (heap.length, base_fname, content, tpl_used))

/-- The claim's name-resolution precedence, written from the spec's words:
an operator-supplied name that is non-empty and not a `Port_` placeholder
wins; otherwise a non-empty synthesized identifier; otherwise the explicit
name if any, else `Port_` + port if a port is known, else `Port_BH`. -/
def name_resolution_spec (dev : Dev) (rk : RoleKey) : Str :=
  let manual := (dev.roleFields rk).if_name.getD []
  let synthesized := create_iface_smart_name dev rk
  let port := normalize_port (dev.roleFields rk).port
  if manual ≠ [] ∧ ¬py_startswith manual (str "Port_") then manual
  else if synthesized ≠ [] then synthesized
  else if manual ≠ [] then manual
  else if port ≠ [] then str "Port_" ++ port
  else str "Port_BH"

/-- Concrete device for the C8 witness: explicit non-placeholder name and a
neighbor that would synthesize an identifier. -/
def c8_dev : Dev :=
  { hostname := some (str "NGA-AJO-CNA5130-01"),
    backhaul := some (str "single"),
    single := { neighbor_name := some (str "NGA-IKJ-CNA8114-01"),
                if_name := some (str "UPLINK_CUSTOM") } }

/-- The interface `create_iface` builds for `c8_dev`. -/
def c8_iface : Iface :=
  { name := str "UPLINK_CUSTOM", description := str "BACKHAUL", vlan := none,
    ip := none, mtu := none, port := some [],
    neighbor_name := some (str "NGA-IKJ-CNA8114-01"),
    neighbor_port := none, neighbor_ip := none,
    saos10_link_id := str "AJO-IKJ8114" }

/-!
## Helper lemmas
-/

/-- Every candidate the selector constructs is a non-empty string. -/
theorem candidate_mem_ne_nil {m b s r c : Str} (hc : c ∈ candidate_list m b s r) :
    c ≠ [] := by
  unfold candidate_list at hc
  simp only [List.mem_append, List.mem_ite_nil_right, List.mem_singleton, List.mem_cons,
    List.not_mem_nil, or_false] at hc
  rcases hc with ((((((hh | hh) | hh) | hh) | hh) | hh) | hh) | hh
  · obtain ⟨-, rfl⟩ := hh
    exact List.append_ne_nil_of_right_ne_nil _ (by decide)
  · obtain ⟨-, rfl⟩ := hh
    exact List.append_ne_nil_of_right_ne_nil _ (by decide)
  · obtain ⟨-, rfl⟩ := hh
    decide
  · obtain ⟨-, rfl⟩ := hh
    decide
  · obtain ⟨-, hh⟩ := hh
    rcases hh with rfl | rfl | rfl <;>
      exact List.append_ne_nil_of_right_ne_nil _ (by decide)
  · obtain ⟨-, rfl⟩ := hh
    exact List.append_ne_nil_of_right_ne_nil _ (by decide)
  · obtain ⟨-, rfl⟩ := hh
    exact List.append_ne_nil_of_right_ne_nil _ (by decide)
  · subst hh
    decide

/-- Lemma: `Option.or` short-circuits on `some`. -/
theorem option_some_or {α : Type} (a : α) (o : Option α) : (some a).or o = some a := rfl

/-- Lemma: `find?` skips a conditional singleton block whose element fails the test. -/
theorem find?_ite_singleton_none {p : Str → Bool} {P : Prop} [Decidable P] {x : Str}
    (hx : p x = false) : List.find? p (if P then [x] else []) = none := by
  split
  · simp [List.find?_singleton, hx]
  · rfl

/-- C1 (counterexample): with both `ciena_3916_saos6_dual.cfg.j2` and
`ciena_3916_saos6.cfg.j2` available, `choose_template` returns the
model+software identifier, not the model+software+backhaul one the claim
requires. -/
theorem c1_counterexample :
    str "ciena_3916_saos6_dual.cfg.j2"
        ∈ [str "ciena_3916_saos6_dual.cfg.j2", str "ciena_3916_saos6.cfg.j2"]
    ∧ str "ciena_3916_saos6.cfg.j2"
        ∈ [str "ciena_3916_saos6_dual.cfg.j2", str "ciena_3916_saos6.cfg.j2"]
    ∧ choose_template (str "3916") (str "dual") (str "saos6") (str "")
        [str "ciena_3916_saos6_dual.cfg.j2", str "ciena_3916_saos6.cfg.j2"]
        = str "ciena_3916_saos6.cfg.j2"
    ∧ str "ciena_3916_saos6.cfg.j2" ≠ str "ciena_3916_saos6_dual.cfg.j2" := by
  decide

/-- C1 (amended): `choose_template` tries `{model}_{software}` first, before
`{model}_{software}_{backhaul}`: whenever the `{model}_{software}` identifier
is available (in particular when both are), it is returned. -/
theorem c1_amended (model backhaul software role : Str) (avail : List Str)
    (hm : pyStrip model ≠ []) (hs : pyStrip software ≠ [])
    (hin : str "ciena_" ++ pyStrip model ++ str "_" ++ pyStrip software ++ str ".cfg.j2"
      ∈ avail) :
    choose_template model backhaul software role avail
      = str "ciena_" ++ pyStrip model ++ str "_" ++ pyStrip software ++ str ".cfg.j2" := by
  simp only [choose_template, candidate_list]
  rw [if_pos ⟨hm, hs⟩]
  simp only [List.singleton_append, List.cons_append]
  rw [List.find?_cons_of_pos]
  exact decide_eq_true hin

/-- C1 (witness). -/
theorem c1_witness :
    choose_template (str "3916") (str "dual") (str "saos6") (str "")
      [str "ciena_3916_saos6.cfg.j2"] = str "ciena_3916_saos6.cfg.j2" :=
  c1_amended _ _ _ _ _ (by decide) (by decide) (by decide)

/-- C2 (counterexample): on the spec's own example pair the function does not
return `"A_steel-B_othe"`. -/
theorem c2_counterexample :
    _derive_interface_name (str "A_steel_sagamu_3903") (str "B_other_site_3916")
      ≠ str "A_steel-B_othe" := by
  decide

/-- C2 (amended): the without-model candidate `"A_steel-B_other"` is exactly
15 characters, so it fits the budget and is returned; the 7+7 truncation tier
is never reached on this pair. -/
theorem c2_amended :
    _derive_interface_name (str "A_steel_sagamu_3903") (str "B_other_site_3916")
      = str "A_steel-B_other"
    ∧ (_derive_interface_name (str "A_steel_sagamu_3903") (str "B_other_site_3916")).length
      = 15 := by
  decide

/-- C3 (code bug): with `aggregation_enabled` set, `backhaul = "dual"` and no
`aggregations` key, `dev.get("aggregations")[0]` subscripts `None` and the
deriver raises `TypeError` instead of degrading gracefully. -/
theorem c3_dual_aggregation_raises :
    _build_interfaces_from_backhaul
      { backhaul := some (str "dual"), aggregation_enabled := true }
      = Except.error "TypeError: NoneType object is not subscriptable" := by
  rfl

/-- C4: the derived link id is at most 15 characters for every non-empty
hostname pair, and empty when either hostname is empty. -/
theorem c4_length_bound (local_host remote_host : Str) :
    (local_host ≠ [] → remote_host ≠ [] →
      (_derive_interface_name local_host remote_host).length ≤ 15)
    ∧ (local_host = [] ∨ remote_host = [] →
      _derive_interface_name local_host remote_host = []) := by
  constructor
  · intro h1 h2
    unfold _derive_interface_name
    rw [if_neg (by tauto)]
    dsimp only
    split_ifs with hc1 hc2
    · exact hc1
    · exact hc2
    · simp only [List.length_append, List.length_cons, List.length_take]
      omega
  · intro h
    unfold _derive_interface_name
    rw [if_pos h]

/-- C4 (witness). -/
theorem c4_witness :
    (_derive_interface_name (str "NGA-AJO-CNA5130-01") (str "NGA-IKJ-CNA8114-01")).length ≤ 15
    ∧ _derive_interface_name [] (str "NGA-IKJ-CNA8114-01") = [] :=
  ⟨(c4_length_bound _ _).1 (by decide) (by decide),
   (c4_length_bound _ _).2 (Or.inl rfl)⟩

/-- C9: the dashed-convention example: site token of the second dash part and
the remote's first four-digit run. -/
theorem c9_dashed_example :
    _derive_interface_name (str "NGA-AJO-CNA5130-01") (str "NGA-IKJ-CNA8114-01")
      = str "AJO-IKJ8114" := by
  decide

/-- C6 (counterexample): for a software tag outside {saos6, saos10} no
software-alone candidate is ever tried: with no model+software template
available but `ciena_saos8.cfg.j2` available, the selector falls back to the
first available entry instead of the software-alone identifier. -/
theorem c6_counterexample :
    str "ciena_saos8.cfg.j2" ∈ [str "ciena_other.cfg.j2", str "ciena_saos8.cfg.j2"]
    ∧ str "ciena_3916_saos8.cfg.j2" ∉ [str "ciena_other.cfg.j2", str "ciena_saos8.cfg.j2"]
    ∧ choose_template (str "3916") (str "") (str "saos8") (str "")
        [str "ciena_other.cfg.j2", str "ciena_saos8.cfg.j2"]
        = str "ciena_other.cfg.j2"
    ∧ str "ciena_other.cfg.j2" ≠ str "ciena_saos8.cfg.j2" := by
  decide

/-- C6 (amended): only for the software families `saos6` and `saos10` is a
software-alone generic candidate tried (after the two model+software
candidates); when neither model+software candidate is available but the
software-alone identifier is, it is returned. -/
theorem c6_amended (model backhaul software role : Str) (avail : List Str)
    (hsw : pyStrip software = str "saos6" ∨ pyStrip software = str "saos10")
    (h1 : str "ciena_" ++ pyStrip model ++ str "_" ++ pyStrip software ++ str ".cfg.j2"
      ∉ avail)
    (h2 : str "ciena_" ++ pyStrip model ++ str "_" ++ pyStrip software ++ str "_"
        ++ pyStrip backhaul ++ str ".cfg.j2" ∉ avail)
    (hin : str "ciena_" ++ pyStrip software ++ str ".cfg.j2" ∈ avail) :
    choose_template model backhaul software role avail
      = str "ciena_" ++ pyStrip software ++ str ".cfg.j2" := by
  simp only [choose_template, candidate_list]
  rcases hsw with hs | hs <;> rw [hs] at h1 h2 hin ⊢
  · rw [if_neg (show ¬(str "saos6" = str "saos10") by decide),
      if_pos (show str "saos6" = str "saos6" from rfl),
      show str "ciena_saos6.cfg.j2" = str "ciena_" ++ str "saos6" ++ str ".cfg.j2" by decide]
    simp only [List.find?_append, List.find?_nil, find?_ite_singleton_none,
      List.find?_cons_of_pos, Option.none_or, option_some_or, h1, h2, hin,
      decide_False, decide_True, not_false_eq_true]
  · rw [if_pos (show str "saos10" = str "saos10" from rfl),
      if_neg (show ¬(str "saos10" = str "saos6") by decide),
      show str "ciena_saos10.cfg.j2" = str "ciena_" ++ str "saos10" ++ str ".cfg.j2" by decide]
    simp only [List.find?_append, List.find?_nil, find?_ite_singleton_none,
      List.find?_cons_of_pos, Option.none_or, option_some_or, h1, h2, hin,
      decide_False, decide_True, not_false_eq_true]

/-- C6 (witness). -/
theorem c6_witness :
    choose_template (str "9999") (str "") (str "saos6") (str "")
      [str "ciena_saos6.cfg.j2"] = str "ciena_saos6.cfg.j2" :=
  c6_amended _ _ _ _ _ (Or.inl (by decide)) (by decide) (by decide) (by decide)

/-- C7 (counterexample): with the degenerate catalog `[""]` no candidate
matches and the first-available fallback returns the empty string. -/
theorem c7_counterexample :
    choose_template (str "9999") (str "single") (str "") (str "") [str ""] = str "" := by
  decide

/-- C7 (amended): `choose_template` is total and, when no constructed
candidate is available, returns the first available entry (the fixed generic
identifier when the catalog is empty); the result is non-empty whenever the
entries of `available` are non-empty strings (as template filenames are). -/
theorem c7_amended (model backhaul software role : Str) (avail : List Str) :
    ((∀ t ∈ avail, t ≠ []) → choose_template model backhaul software role avail ≠ [])
    ∧ ((∀ c ∈ candidate_list (pyStrip model) (pyStrip backhaul) (pyStrip software)
          (pyStrip role), c ∉ avail) →
        choose_template model backhaul software role avail
          = avail.headD (str "ciena_generic.cfg.j2")) := by
  constructor
  · intro hne
    simp only [choose_template]
    cases hf : List.find? (fun c => decide (c ∈ avail))
        (candidate_list (pyStrip model) (pyStrip backhaul) (pyStrip software) (pyStrip role)) with
    | some c =>
      exact candidate_mem_ne_nil (List.mem_of_find?_eq_some hf)
    | none =>
      cases avail with
      | nil => decide
      | cons t ts => exact hne t (List.mem_cons_self t ts)
  · intro hnone
    have hf : List.find? (fun c => decide (c ∈ avail))
        (candidate_list (pyStrip model) (pyStrip backhaul) (pyStrip software) (pyStrip role))
        = none :=
      List.find?_eq_none.mpr (fun x hx => by simp [hnone x hx])
    simp only [choose_template, hf]
    cases avail <;> rfl

/-- C7 (witness). -/
theorem c7_witness :
    choose_template (str "9999") (str "single") (str "") (str "") []
      = str "ciena_generic.cfg.j2"
    ∧ choose_template (str "9999") (str "single") (str "") (str "")
        [str "ciena_generic.cfg.j2"] ≠ [] :=
  ⟨(c7_amended _ _ _ _ _).2 (by decide), (c7_amended _ _ _ _ _).1 (by decide)⟩

/-- Lemma: `create_iface` can only fail through the dual-backhaul aggregation
subscript; everywhere else it returns a spec. -/
theorem create_iface_ok_of_not_dual (dev : Dev) (rk : RoleKey) (idx : Nat)
    (h : ¬(dev.aggregation_enabled ∧ dev.backhaul.getD [] = str "dual")) :
    ∃ i, create_iface dev rk idx = Except.ok i := by
  simp only [create_iface]
  by_cases hA : dev.aggregation_enabled ∧ dev.backhaul.getD [] = str "single"
  · rw [if_pos hA]
    exact ⟨_, rfl⟩
  · rw [if_neg hA, if_neg h]
    exact ⟨_, rfl⟩

/-- C5 (counterexample): a dual-backhaul record with aggregation enabled and
a one-entry `aggregations` list: the deriver raises `IndexError` instead of
producing two backhaul InterfaceSpecs followed by `other_interfaces`. -/
theorem c5_counterexample :
    _build_interfaces_from_backhaul
      { backhaul := some (str "dual"), aggregation_enabled := true,
        aggregations := some [{ name := str "lag1" }] }
      = Except.error "IndexError: list index out of range" := by
  rfl

/-- C5 (amended): for `backhaul = "single"` the deriver always succeeds with
exactly one backhaul spec followed by the unmodified `other_interfaces`; for
`"dual"`, whenever it returns (aggregation data well-formed), the result is
exactly the primary spec then the secondary spec then the unmodified
`other_interfaces`; for any other backhaul value it returns exactly
`other_interfaces`. -/
theorem c5_amended (dev : Dev) :
    (dev.backhaul.getD [] = str "single" →
      ∃ i, create_iface dev RoleKey.single 0 = Except.ok i ∧
        _build_interfaces_from_backhaul dev
          = Except.ok ([i] ++ dev.other_interfaces.getD []))
    ∧ (dev.backhaul.getD [] = str "dual" →
      ∀ l, _build_interfaces_from_backhaul dev = Except.ok l →
        ∃ i1 i2, create_iface dev RoleKey.primary 0 = Except.ok i1 ∧
          create_iface dev RoleKey.secondary 1 = Except.ok i2 ∧
          l = [i1, i2] ++ dev.other_interfaces.getD [])
    ∧ (dev.backhaul.getD [] ≠ str "single" → dev.backhaul.getD [] ≠ str "dual" →
      _build_interfaces_from_backhaul dev
        = Except.ok (dev.other_interfaces.getD [])) := by
  refine ⟨?_, ?_, ?_⟩
  · intro h
    have hnd : ¬(dev.aggregation_enabled ∧ dev.backhaul.getD [] = str "dual") := by
      rintro ⟨-, hd⟩
      rw [h] at hd
      exact absurd hd (by decide)
    obtain ⟨i, hi⟩ := create_iface_ok_of_not_dual dev RoleKey.single 0 hnd
    refine ⟨i, hi, ?_⟩
    simp only [_build_interfaces_from_backhaul]
    rw [if_pos h, hi]
  · intro h l hl
    have hns : ¬(dev.backhaul.getD [] = str "single") := by
      rw [h]
      decide
    simp only [_build_interfaces_from_backhaul] at hl
    rw [if_neg hns, if_pos h] at hl
    cases hp : create_iface dev RoleKey.primary 0 with
    | error e =>
      rw [hp] at hl
      exact Except.noConfusion hl
    | ok i1 =>
      rw [hp] at hl
      cases hq : create_iface dev RoleKey.secondary 1 with
      | error e =>
        rw [hq] at hl
        exact Except.noConfusion hl
      | ok i2 =>
        rw [hq] at hl
        simp only [Except.ok.injEq] at hl
        exact ⟨i1, i2, rfl, rfl, hl.symm⟩
  · intro h1 h2
    simp only [_build_interfaces_from_backhaul]
    rw [if_neg h1, if_neg h2]

/-- C5 (witness). -/
theorem c5_witness : _build_interfaces_from_backhaul {} = Except.ok [] :=
  (c5_amended {}).2.2 (by decide) (by decide)

/-- The code's `final_name` chain agrees with the spec's precedence order. -/
theorem final_name_eq_spec (dev : Dev) (rk : RoleKey) :
    create_iface_final_name dev rk = name_resolution_spec dev rk := by
  simp only [create_iface_final_name, name_resolution_spec]
  by_cases h1 : (dev.roleFields rk).if_name.getD [] = [] <;>
    by_cases h2 : py_startswith ((dev.roleFields rk).if_name.getD []) (str "Port_") = true <;>
    by_cases h3 : create_iface_smart_name dev rk = [] <;>
    simp [h1, h2, h3]

/-- C8: for every interface the builder returns, the `name` field follows the
spec's precedence: a non-placeholder operator-supplied name wins over the
synthesized identifier, which wins over the remaining fallbacks. -/
theorem c8_name_resolution (dev : Dev) (rk : RoleKey) (idx : Nat) (ifc : Iface)
    (h : create_iface dev rk idx = Except.ok ifc) :
    ifc.name = name_resolution_spec dev rk := by
  simp only [create_iface] at h
  by_cases hA : dev.aggregation_enabled ∧ dev.backhaul.getD [] = str "single"
  · rw [if_pos hA] at h
    simp only [Except.ok.injEq] at h
    rw [← h, ← final_name_eq_spec]
  · rw [if_neg hA] at h
    by_cases hB : dev.aggregation_enabled ∧ dev.backhaul.getD [] = str "dual"
    · rw [if_pos hB] at h
      cases hagg : dev.aggregations with
      | none =>
        simp only [hagg] at h
        exact Except.noConfusion h
      | some aggs =>
        simp only [hagg] at h
        cases hg : aggs.get? idx with
        | none =>
          simp only [hg] at h
          exact Except.noConfusion h
        | some a =>
          simp only [hg, Except.ok.injEq] at h
          rw [← h, ← final_name_eq_spec]
    · rw [if_neg hB] at h
      simp only [Except.ok.injEq] at h
      rw [← h, ← final_name_eq_spec]

/-- C8 (witness): the operator-supplied name wins although a neighbor is
present and an identifier could be synthesized. -/
theorem c8_witness :
    create_iface c8_dev RoleKey.single 0 = Except.ok c8_iface
    ∧ c8_iface.name = name_resolution_spec c8_dev RoleKey.single :=
  ⟨rfl, c8_name_resolution c8_dev RoleKey.single 0 c8_iface rfl⟩

/-- C10: `render_device` never changes any existing heap cell — in
particular the caller's device record keeps every top-level binding: the
defaults and the derived `interfaces` list are written to the fresh shallow
copy only. -/
theorem c10_frame (render : Str → Dev → Str) (heap : List Dev) (r i : Nat)
    (avail : List Str) (h : i < heap.length) :
    ((render_device render heap r avail).1)[i]? = heap[i]? := by
  simp only [render_device]
  split
  · exact List.getElem?_append_left h
  · exact List.getElem?_append_left h

/-- C10 (witness). -/
theorem c10_witness :
    ((render_device (fun _ _ => []) [{}] 0 []).1)[0]? = [({} : Dev)][0]? :=
  c10_frame _ _ _ _ _ (by decide)
